import Mathlib

/-!
# Verification of the WasmEdge HTTP execution service

Shallow embedding of `src/backend/docker/wasmedge-service/src/main.rs`
(the `execute_wasm` handler and its request/response data model).

External library behaviour (the `base64` crate, the `wasmedge_sdk` engine
and the wall clock) is modelled as an oracle (`Engine`): the handler's own
control flow, data flow and every string it builds are transcribed from the
source.  Each fallible library call becomes an `Except String _` valued
field of the oracle; `u64` values become `Nat`.  The actix `?` propagation
on the config-build error is modelled by the handler returning
`Except String HttpResponse`: `Except.error` is the handler-level actix
error that escapes the handler, `Except.ok` is a JSON response it built
itself.
-/

namespace WasmedgeService

/-- `serde_json::Value`: a JSON-equivalent tree.  Numbers are modelled as
`Int`; no claim depends on numeric JSON semantics. -/
inductive Json where
  | null : Json
  | bool : Bool → Json
  | num : Int → Json
  | str : String → Json
  | arr : List Json → Json
  | obj : List (String × Json) → Json

/-- Byte sequence (the decoded WASM binary). -/
abbrev Bytes : Type := List Nat

/-- `wasmedge_sdk::WasmValue` (a native guest value).  Only its presence in
the result list matters to the handler. -/
structure WasmValue where
  val : Int
deriving DecidableEq, Repr

/-- The opaque `Vm` handle threaded through the staged builder calls. -/
structure Vm where
  id : Nat
deriving DecidableEq, Repr

/-- The opaque built `Config` handed to `Vm::new`. -/
structure Config where
  id : Nat
deriving DecidableEq, Repr

/-- `CommonConfigOptions::default()` — the engine's fixed common options;
nothing in them is derived from the request. -/
inductive CommonConfigOptions where
  | default : CommonConfigOptions
deriving DecidableEq, Repr

/-- `HostRegistrationConfigOptions` — which host capability sets are
registered. -/
structure HostRegistrationConfigOptions where
  wasi : Bool
deriving DecidableEq, Repr

/-- `HostRegistrationConfigOptions::default()`. -/
def HostRegistrationConfigOptions.default : HostRegistrationConfigOptions :=
  { wasi := false }

/-- The builder method `.wasi(b)`. -/
def HostRegistrationConfigOptions.setWasi
    (o : HostRegistrationConfigOptions) (b : Bool) : HostRegistrationConfigOptions :=
  { o with wasi := b }

/-- The options handed to `ConfigBuilder::new(..)....build()`: everything
the handler chooses about the sandbox configuration. -/
structure SandboxConfigOptions where
  common : CommonConfigOptions
  hostRegistration : HostRegistrationConfigOptions
deriving DecidableEq, Repr

/-- `ExecuteRequest` (the deserialized POST /execute body). -/
structure ExecuteRequest where
  wasm : String
  input : Json
  function_name : Option String
  memory_limit : Option Nat
  timeout : Option Nat

/-- `ExecuteResponse` (the JSON body of every response the handler builds). -/
structure ExecuteResponse where
  success : Bool
  output : Option Json
  error : Option String
  execution_time : Option Nat
  memory_used : Option Nat

/-- The HTTP status the handler attaches to a response body. -/
inductive HttpStatus where
  | ok : HttpStatus
  | badRequest : HttpStatus
  | internalServerError : HttpStatus
deriving DecidableEq, Repr

/-- An HTTP response built by the handler: status plus JSON body. -/
structure HttpResponse where
  status : HttpStatus
  body : ExecuteResponse

/-- The oracle for the handler's external library calls, one call per field,
in source order.  `elapsedMillis` models
`start_time.elapsed().as_millis() as u64`: every path through the handler
samples the clock exactly once (in the response it builds), so one value
per run is faithful. -/
structure Engine where
  decodeBase64 : String → Except String Bytes
  buildConfig : SandboxConfigOptions → Except String Config
  vmNew : Config → Except String Vm
  loadWasm : Vm → Bytes → Except String Vm
  validateVm : Vm → Except String Vm
  instantiateVm : Vm → Except String Vm
  runFunc : Vm → String → List WasmValue → Except String (List WasmValue)
  elapsedMillis : Nat

/-- The config options the handler passes to the builder, transcribing
`ConfigBuilder::new(CommonConfigOptions::default())
   .with_host_registration_config(HostRegistrationConfigOptions::default().wasi(true))`.
The request is in scope at that point in the source, so the expression is
modelled as a function of it. -/
def sandboxConfigOptions (_req : ExecuteRequest) : SandboxConfigOptions :=
  { common := CommonConfigOptions.default,
    hostRegistration := HostRegistrationConfigOptions.default.setWasi true }

mutual
/-- `serde_json::to_string` on a `Value` (used for the handler's
`input_json`, which the source computes and never uses; string-escaping
detail is irrelevant to every claim because the value is dead). -/
def Json.toStr : Json → String
  | .null => "null"
  | .bool true => "true"
  | .bool false => "false"
  | .num n => toString n
  | .str s => "\"" ++ s ++ "\""
  | .arr xs => "[" ++ Json.listToStr xs ++ "]"
  | .obj fs => "\x7b" ++ Json.fieldsToStr fs ++ "\x7d"

def Json.listToStr : List Json → String
  | [] => ""
  | [x] => Json.toStr x
  | x :: xs => Json.toStr x ++ "," ++ Json.listToStr xs

def Json.fieldsToStr : List (String × Json) → String
  | [] => ""
  | [(k, v)] => "\"" ++ k ++ "\":" ++ Json.toStr v
  | (k, v) :: fs => "\"" ++ k ++ "\":" ++ Json.toStr v ++ "," ++ Json.fieldsToStr fs
end

/-- The fixed object `json!({ "result": "execution successful" })` returned
as `output` when the guest produced a non-empty result list. -/
def successPlaceholder : Json :=
  Json.obj [(("result"), Json.str ("execution successful"))]

/-- The handler `execute_wasm`.  `Except.error` models the actix error that
escapes via `?` on the config-build failure; every other branch returns an
`HttpResponse` the handler built itself. -/
def execute_wasm (e : Engine) (req : ExecuteRequest) : Except String HttpResponse :=
  match e.decodeBase64 req.wasm with
  | .error msg =>
      .ok ⟨.badRequest,
        { success := false
          output := none
          error := some ("Invalid WASM base64: " ++ msg)
          execution_time := some e.elapsedMillis
          memory_used := none }⟩
  | .ok wasm_bytes =>
    match e.buildConfig (sandboxConfigOptions req) with
    | .error msg => .error ("Config error: " ++ msg)
    | .ok config =>
      match e.vmNew config with
      | .error msg =>
          .ok ⟨.internalServerError,
            { success := false
              output := none
              error := some ("Failed to create VM: " ++ msg)
              execution_time := some e.elapsedMillis
              memory_used := none }⟩
      | .ok vm =>
        match e.loadWasm vm wasm_bytes with
        | .error msg =>
            .ok ⟨.badRequest,
              { success := false
                output := none
                error := some ("Failed to load WASM: " ++ msg)
                execution_time := some e.elapsedMillis
                memory_used := none }⟩
        | .ok vm1 =>
          match e.validateVm vm1 with
          | .error msg =>
              .ok ⟨.badRequest,
                { success := false
                  output := none
                  error := some ("Invalid WASM module: " ++ msg)
                  execution_time := some e.elapsedMillis
                  memory_used := none }⟩
          | .ok vm2 =>
            match e.instantiateVm vm2 with
            | .error msg =>
                .ok ⟨.internalServerError,
                  { success := false
                    output := none
                    error := some ("Failed to instantiate WASM: " ++ msg)
                    execution_time := some e.elapsedMillis
                    memory_used := none }⟩
            | .ok vm3 =>
              let _input_json : String := req.input.toStr
              let function_name : String := req.function_name.getD ("main")
              match e.runFunc vm3 function_name [] with
              | .ok results =>
                  let output : Json :=
                    if results.isEmpty then req.input else successPlaceholder
                  .ok ⟨.ok,
                    { success := true
                      output := some output
                      error := none
                      execution_time := some e.elapsedMillis
                      memory_used := none }⟩
              | .error msg =>
                  .ok ⟨.internalServerError,
                    { success := false
                      output := none
                      error := some ("Execution error: " ++ msg)
                      execution_time := some e.elapsedMillis
                      memory_used := none }⟩

/-- The pipeline stages of the handler, in source order.  `load`,
`validate`, `instantiate`, `run` are the spec's lifecycle stages
(`load_wasm_from_bytes`, `validate`, `instantiate`, `run_func`); `decode`,
`config`, `vmNew` are the handler's preliminary stages. -/
inductive Stage where
  | decode : Stage
  | config : Stage
  | vmNew : Stage
  | load : Stage
  | validate : Stage
  | instantiate : Stage
  | run : Stage
deriving DecidableEq, Repr

/-- The full stage order of the handler. -/
def allStages : List Stage :=
  [.decode, .config, .vmNew, .load, .validate, .instantiate, .run]

/-- The fixed message prefix the handler attaches to a failure at each
stage, transcribed from the `format!` strings (for `config` it is the
prefix of the escaping actix error, not of a response body). -/
def stageTag : Stage → String
  | .decode => "Invalid WASM base64: "
  | .config => "Config error: "
  | .vmNew => "Failed to create VM: "
  | .load => "Failed to load WASM: "
  | .validate => "Invalid WASM module: "
  | .instantiate => "Failed to instantiate WASM: "
  | .run => "Execution error: "

/-- `execute_wasm` instrumented with the list of stages it attempts, in
order.  Identical branch structure to `execute_wasm`; the first component
is proved equal to `execute_wasm` in `execute_wasm_traced_fst`. -/
def execute_wasm_traced (e : Engine) (req : ExecuteRequest) :
    Except String HttpResponse × List Stage :=
  match e.decodeBase64 req.wasm with
  | .error msg =>
      (.ok ⟨.badRequest,
        { success := false
          output := none
          error := some ("Invalid WASM base64: " ++ msg)
          execution_time := some e.elapsedMillis
          memory_used := none }⟩, [.decode])
  | .ok wasm_bytes =>
    match e.buildConfig (sandboxConfigOptions req) with
    | .error msg => (.error ("Config error: " ++ msg), [.decode, .config])
    | .ok config =>
      match e.vmNew config with
      | .error msg =>
          (.ok ⟨.internalServerError,
            { success := false
              output := none
              error := some ("Failed to create VM: " ++ msg)
              execution_time := some e.elapsedMillis
              memory_used := none }⟩, [.decode, .config, .vmNew])
      | .ok vm =>
        match e.loadWasm vm wasm_bytes with
        | .error msg =>
            (.ok ⟨.badRequest,
              { success := false
                output := none
                error := some ("Failed to load WASM: " ++ msg)
                execution_time := some e.elapsedMillis
                memory_used := none }⟩, [.decode, .config, .vmNew, .load])
        | .ok vm1 =>
          match e.validateVm vm1 with
          | .error msg =>
              (.ok ⟨.badRequest,
                { success := false
                  output := none
                  error := some ("Invalid WASM module: " ++ msg)
                  execution_time := some e.elapsedMillis
                  memory_used := none }⟩,
               [.decode, .config, .vmNew, .load, .validate])
          | .ok vm2 =>
            match e.instantiateVm vm2 with
            | .error msg =>
                (.ok ⟨.internalServerError,
                  { success := false
                    output := none
                    error := some ("Failed to instantiate WASM: " ++ msg)
                    execution_time := some e.elapsedMillis
                    memory_used := none }⟩,
                 [.decode, .config, .vmNew, .load, .validate, .instantiate])
            | .ok vm3 =>
              let _input_json : String := req.input.toStr
              let function_name : String := req.function_name.getD ("main")
              match e.runFunc vm3 function_name [] with
              | .ok results =>
                  let output : Json :=
                    if results.isEmpty then req.input else successPlaceholder
                  (.ok ⟨.ok,
                    { success := true
                      output := some output
                      error := none
                      execution_time := some e.elapsedMillis
                      memory_used := none }⟩, allStages)
              | .error msg =>
                  (.ok ⟨.internalServerError,
                    { success := false
                      output := none
                      error := some ("Execution error: " ++ msg)
                      execution_time := some e.elapsedMillis
                      memory_used := none }⟩, allStages)

/-- A sample request: module bytes in base64, numeric input, every optional
field absent. -/
def reqSample : ExecuteRequest :=
  { wasm := "AGFzbQ"
    input := Json.num 5
    function_name := none
    memory_limit := none
    timeout := none }

/-- An engine run on which every stage succeeds and the guest returns no
values. -/
def engOkEmpty : Engine :=
  { decodeBase64 := fun _ => .ok [0, 97, 115, 109]
    buildConfig := fun _ => .ok ⟨0⟩
    vmNew := fun _ => .ok ⟨0⟩
    loadWasm := fun vm _ => .ok vm
    validateVm := fun vm => .ok vm
    instantiateVm := fun vm => .ok vm
    runFunc := fun _ _ _ => .ok []
    elapsedMillis := 7 }

/-- Same engine run except the guest returns one native value. -/
def engOkNonempty : Engine :=
  { engOkEmpty with runFunc := fun _ _ _ => .ok [⟨0⟩] }

/-- Same engine run except building the sandbox configuration fails. -/
def engConfigFail : Engine :=
  { engOkEmpty with buildConfig := fun _ => .error ("boom") }

/-- Same engine run except loading the module bytes fails. -/
def engLoadFail : Engine :=
  { engOkEmpty with loadWasm := fun _ _ => .error ("bad magic") }

/-- A run function that agrees with `engOkEmpty`'s whenever the argument
list is empty and differs on every non-empty argument list. -/
def runFuncAlt : Vm → String → List WasmValue → Except String (List WasmValue) :=
  fun _ _ args => if args.isEmpty then .ok [] else .error ("arguments were passed")

/-- The response `engOkEmpty` produces for `reqSample`. -/
def respSample : HttpResponse :=
  ⟨.ok,
    { success := true
      output := some (Json.num 5)
      error := none
      execution_time := some 7
      memory_used := none }⟩

/-- The response `engLoadFail` produces for `reqSample`. -/
def respLoadFail : HttpResponse :=
  ⟨.badRequest,
    { success := false
      output := none
      error := some ("Failed to load WASM: " ++ "bad magic")
      execution_time := some 7
      memory_used := none }⟩

/-!
## Theorems settling the claims
-/

/-- C1: the handler never enforces a timeout — its entire behaviour is
independent of the request's `timeout` field (the field is never read), so
no request can ever produce a `RunError::Timeout` classification and the
guest invocation is awaited without any deadline.  This refutes the claimed
timeout behaviour on the code as written. -/
theorem C1_timeout_never_influences_execution (e : Engine) (w : String)
    (i : Json) (f : Option String) (m t : Option Nat) :
    execute_wasm e ⟨w, i, f, m, t⟩ = execute_wasm e ⟨w, i, f, m, none⟩ := rfl

/-- C3: no service default is ever substituted for an absent
`memory_limit` or `timeout`: the sandbox configuration options handed to
the builder are one fixed constant for every request (WASI enabled, engine
common defaults, no memory ceiling and no deadline derived from the
request), and the handler behaves identically whether the limits are
absent or explicitly set. -/
theorem C3_no_default_limits_substituted (e : Engine) (w : String) (i : Json)
    (f : Option String) (m t : Option Nat) (r : ExecuteRequest) :
    sandboxConfigOptions ⟨w, i, f, m, t⟩ = sandboxConfigOptions r ∧
    execute_wasm e ⟨w, i, f, none, none⟩ = execute_wasm e ⟨w, i, f, m, t⟩ :=
  ⟨rfl, rfl⟩

/-- C9: two requests that differ only in `memory_limit` and `timeout`
produce identical results under identical library behaviour: the two
fields influence nothing in the handler. -/
theorem C9_limit_fields_noninterference (e : Engine) (w : String) (i : Json)
    (f : Option String) (m₁ t₁ m₂ t₂ : Option Nat) :
    execute_wasm e ⟨w, i, f, m₁, t₁⟩ = execute_wasm e ⟨w, i, f, m₂, t₂⟩ := rfl

/-- C2 counterexample: when building the sandbox configuration fails, the
error escapes the handler as a handler-level (actix) error rather than
being converted into a structured `ExecuteResponse` value, so the caller
does not receive the structured response shape from the handler. -/
theorem C2_counterexample_config_error_escapes :
    execute_wasm engConfigFail reqSample = Except.error ("Config error: " ++ "boom") :=
  rfl

/-- C2 amended: whenever the sandbox configuration builds successfully (and
unconditionally on the decode-failure path), every stage error is caught
and converted into a structured response; only a config-build failure
escapes the handler. -/
theorem C2_errors_caught_except_config (e : Engine) (req : ExecuteRequest)
    (h : ∃ c, e.buildConfig (sandboxConfigOptions req) = Except.ok c) :
    ∃ resp : HttpResponse, execute_wasm e req = Except.ok resp := by
  obtain ⟨c, hc⟩ := h
  cases hd : e.decodeBase64 req.wasm with
  | error msg => exact ⟨_, by simp [execute_wasm, hd]; rfl⟩
  | ok bs =>
    cases hv : e.vmNew c with
    | error msg => exact ⟨_, by simp [execute_wasm, hd, hc, hv]; rfl⟩
    | ok vm =>
      cases hl : e.loadWasm vm bs with
      | error msg => exact ⟨_, by simp [execute_wasm, hd, hc, hv, hl]; rfl⟩
      | ok vm1 =>
        cases hva : e.validateVm vm1 with
        | error msg => exact ⟨_, by simp [execute_wasm, hd, hc, hv, hl, hva]; rfl⟩
        | ok vm2 =>
          cases hi : e.instantiateVm vm2 with
          | error msg => exact ⟨_, by simp [execute_wasm, hd, hc, hv, hl, hva, hi]; rfl⟩
          | ok vm3 =>
            cases hr : e.runFunc vm3 (req.function_name.getD ("main")) [] with
            | error msg =>
                exact ⟨_, by simp [execute_wasm, hd, hc, hv, hl, hva, hi, hr]; rfl⟩
            | ok rs =>
                exact ⟨_, by simp [execute_wasm, hd, hc, hv, hl, hva, hi, hr]; rfl⟩

/-- C2 witness: a concrete run on which the configuration builds and a
structured response is produced. -/
theorem C2_errors_caught_except_config_witness :
    ∃ resp : HttpResponse, execute_wasm engOkEmpty reqSample = Except.ok resp :=
  C2_errors_caught_except_config engOkEmpty reqSample ⟨⟨0⟩, rfl⟩

/-- C10: on every path on which the handler itself produces a response
(decode failure, any stage failure, success), the `memory_used` field is
`none`. -/
theorem C10_memory_used_always_none (e : Engine) (req : ExecuteRequest)
    (resp : HttpResponse) (h : execute_wasm e req = Except.ok resp) :
    resp.body.memory_used = none := by
  cases hd : e.decodeBase64 req.wasm with
  | error msg => simp [execute_wasm, hd] at h; simp [← h]
  | ok bs =>
    cases hc : e.buildConfig (sandboxConfigOptions req) with
    | error msg => simp [execute_wasm, hd, hc] at h
    | ok c =>
      cases hv : e.vmNew c with
      | error msg => simp [execute_wasm, hd, hc, hv] at h; simp [← h]
      | ok vm =>
        cases hl : e.loadWasm vm bs with
        | error msg => simp [execute_wasm, hd, hc, hv, hl] at h; simp [← h]
        | ok vm1 =>
          cases hva : e.validateVm vm1 with
          | error msg => simp [execute_wasm, hd, hc, hv, hl, hva] at h; simp [← h]
          | ok vm2 =>
            cases hi : e.instantiateVm vm2 with
            | error msg =>
                simp [execute_wasm, hd, hc, hv, hl, hva, hi] at h; simp [← h]
            | ok vm3 =>
              cases hr : e.runFunc vm3 (req.function_name.getD ("main")) [] with
              | error msg =>
                  simp [execute_wasm, hd, hc, hv, hl, hva, hi, hr] at h; simp [← h]
              | ok rs =>
                  simp [execute_wasm, hd, hc, hv, hl, hva, hi, hr] at h; simp [← h]

/-- C10 witness: the concrete successful run reports no `memory_used`. -/
theorem C10_memory_used_always_none_witness :
    respSample.body.memory_used = none :=
  C10_memory_used_always_none engOkEmpty reqSample respSample rfl

/-- C4: the handler attempts its stages in the fixed order decode, config,
vmNew, load, validate, instantiate, run — the attempted-stage trace is
always a prefix of that duplicate-free list (each stage at most once, no
retry); a success response occurs only after every stage including `run`
was attempted (the `Executed` terminal state); and a failure response is
tagged with the message prefix of the last attempted stage, at which the
pipeline stopped. -/
theorem C4_stage_order_single_attempt_terminality (e : Engine) (req : ExecuteRequest) :
    (execute_wasm_traced e req).1 = execute_wasm e req ∧
    (execute_wasm_traced e req).2 <+: allStages ∧
    allStages.Nodup ∧
    (∀ resp : HttpResponse, execute_wasm e req = Except.ok resp →
      resp.body.success = true → (execute_wasm_traced e req).2 = allStages) ∧
    (∀ resp : HttpResponse, execute_wasm e req = Except.ok resp →
      resp.body.success = false →
      ∃ s msg, (execute_wasm_traced e req).2.getLast? = some s ∧
        resp.body.error = some (stageTag s ++ msg)) := by
  cases hd : e.decodeBase64 req.wasm with
  | error msg =>
    have hT : (execute_wasm_traced e req).2 = [Stage.decode] := by
      simp [execute_wasm_traced, hd]
    have hE : execute_wasm e req =
        Except.ok ⟨.badRequest,
          { success := false, output := none,
            error := some ("Invalid WASM base64: " ++ msg),
            execution_time := some e.elapsedMillis, memory_used := none }⟩ := by
      simp [execute_wasm, hd]
    refine ⟨by simp [execute_wasm, execute_wasm_traced, hd], by rw [hT]; decide,
      by decide, ?_, ?_⟩
    · intro resp h1 h2
      rw [hE] at h1; injection h1 with h1; subst h1; simp at h2
    · intro resp h1 _
      rw [hE] at h1; injection h1 with h1; subst h1; rw [hT]
      exact ⟨.decode, msg, rfl, rfl⟩
  | ok bs =>
    cases hc : e.buildConfig (sandboxConfigOptions req) with
    | error msg =>
      have hE : execute_wasm e req = Except.error ("Config error: " ++ msg) := by
        simp [execute_wasm, hd, hc]
      have hT : (execute_wasm_traced e req).2 = [Stage.decode, Stage.config] := by
        simp [execute_wasm_traced, hd, hc]
      refine ⟨by simp [execute_wasm, execute_wasm_traced, hd, hc], by rw [hT]; decide,
        by decide, ?_, ?_⟩
      · intro resp h1 _; rw [hE] at h1; exact Except.noConfusion h1
      · intro resp h1 _; rw [hE] at h1; exact Except.noConfusion h1
    | ok c =>
      cases hv : e.vmNew c with
      | error msg =>
        have hT : (execute_wasm_traced e req).2 =
            [Stage.decode, Stage.config, Stage.vmNew] := by
          simp [execute_wasm_traced, hd, hc, hv]
        have hE : execute_wasm e req =
            Except.ok ⟨.internalServerError,
              { success := false, output := none,
                error := some ("Failed to create VM: " ++ msg),
                execution_time := some e.elapsedMillis, memory_used := none }⟩ := by
          simp [execute_wasm, hd, hc, hv]
        refine ⟨by simp [execute_wasm, execute_wasm_traced, hd, hc, hv],
          by rw [hT]; decide, by decide, ?_, ?_⟩
        · intro resp h1 h2
          rw [hE] at h1; injection h1 with h1; subst h1; simp at h2
        · intro resp h1 _
          rw [hE] at h1; injection h1 with h1; subst h1; rw [hT]
          exact ⟨.vmNew, msg, rfl, rfl⟩
      | ok vm =>
        cases hl : e.loadWasm vm bs with
        | error msg =>
          have hT : (execute_wasm_traced e req).2 =
              [Stage.decode, Stage.config, Stage.vmNew, Stage.load] := by
            simp [execute_wasm_traced, hd, hc, hv, hl]
          have hE : execute_wasm e req =
              Except.ok ⟨.badRequest,
                { success := false, output := none,
                  error := some ("Failed to load WASM: " ++ msg),
                  execution_time := some e.elapsedMillis, memory_used := none }⟩ := by
            simp [execute_wasm, hd, hc, hv, hl]
          refine ⟨by simp [execute_wasm, execute_wasm_traced, hd, hc, hv, hl],
            by rw [hT]; decide, by decide, ?_, ?_⟩
          · intro resp h1 h2
            rw [hE] at h1; injection h1 with h1; subst h1; simp at h2
          · intro resp h1 _
            rw [hE] at h1; injection h1 with h1; subst h1; rw [hT]
            exact ⟨.load, msg, rfl, rfl⟩
        | ok vm1 =>
          cases hva : e.validateVm vm1 with
          | error msg =>
            have hT : (execute_wasm_traced e req).2 =
                [Stage.decode, Stage.config, Stage.vmNew, Stage.load, Stage.validate] := by
              simp [execute_wasm_traced, hd, hc, hv, hl, hva]
            have hE : execute_wasm e req =
                Except.ok ⟨.badRequest,
                  { success := false, output := none,
                    error := some ("Invalid WASM module: " ++ msg),
                    execution_time := some e.elapsedMillis, memory_used := none }⟩ := by
              simp [execute_wasm, hd, hc, hv, hl, hva]
            refine ⟨by simp [execute_wasm, execute_wasm_traced, hd, hc, hv, hl, hva],
              by rw [hT]; decide, by decide, ?_, ?_⟩
            · intro resp h1 h2
              rw [hE] at h1; injection h1 with h1; subst h1; simp at h2
            · intro resp h1 _
              rw [hE] at h1; injection h1 with h1; subst h1; rw [hT]
              exact ⟨.validate, msg, rfl, rfl⟩
          | ok vm2 =>
            cases hi : e.instantiateVm vm2 with
            | error msg =>
              have hT : (execute_wasm_traced e req).2 =
                  [Stage.decode, Stage.config, Stage.vmNew, Stage.load,
                    Stage.validate, Stage.instantiate] := by
                simp [execute_wasm_traced, hd, hc, hv, hl, hva, hi]
              have hE : execute_wasm e req =
                  Except.ok ⟨.internalServerError,
                    { success := false, output := none,
                      error := some ("Failed to instantiate WASM: " ++ msg),
                      execution_time := some e.elapsedMillis, memory_used := none }⟩ := by
                simp [execute_wasm, hd, hc, hv, hl, hva, hi]
              refine ⟨by simp [execute_wasm, execute_wasm_traced, hd, hc, hv, hl, hva, hi],
                by rw [hT]; decide, by decide, ?_, ?_⟩
              · intro resp h1 h2
                rw [hE] at h1; injection h1 with h1; subst h1; simp at h2
              · intro resp h1 _
                rw [hE] at h1; injection h1 with h1; subst h1; rw [hT]
                exact ⟨.instantiate, msg, rfl, rfl⟩
            | ok vm3 =>
              cases hr : e.runFunc vm3 (req.function_name.getD ("main")) [] with
              | ok rs =>
                have hT : (execute_wasm_traced e req).2 = allStages := by
                  simp [execute_wasm_traced, hd, hc, hv, hl, hva, hi, hr]
                have hE : execute_wasm e req =
                    Except.ok ⟨.ok,
                      { success := true,
                        output := some (if rs.isEmpty then req.input else successPlaceholder),
                        error := none,
                        execution_time := some e.elapsedMillis, memory_used := none }⟩ := by
                  simp [execute_wasm, hd, hc, hv, hl, hva, hi, hr]
                refine ⟨by simp [execute_wasm, execute_wasm_traced, hd, hc, hv, hl, hva, hi, hr],
                  by rw [hT], by decide, ?_, ?_⟩
                · intro resp _ _; exact hT
                · intro resp h1 h2
                  rw [hE] at h1; injection h1 with h1; subst h1; simp at h2
              | error msg =>
                have hT : (execute_wasm_traced e req).2 = allStages := by
                  simp [execute_wasm_traced, hd, hc, hv, hl, hva, hi, hr]
                have hE : execute_wasm e req =
                    Except.ok ⟨.internalServerError,
                      { success := false, output := none,
                        error := some ("Execution error: " ++ msg),
                        execution_time := some e.elapsedMillis, memory_used := none }⟩ := by
                  simp [execute_wasm, hd, hc, hv, hl, hva, hi, hr]
                refine ⟨by simp [execute_wasm, execute_wasm_traced, hd, hc, hv, hl, hva, hi, hr],
                  by rw [hT], by decide, ?_, ?_⟩
                · intro resp _ _
                  exact hT
                · intro resp h1 _
                  rw [hE] at h1; injection h1 with h1; subst h1; rw [hT]
                  exact ⟨.run, msg, by decide, rfl⟩

/-- C4 witness: on a concrete all-successful run the attempted-stage trace
is the full stage list. -/
theorem C4_stage_order_witness :
    (execute_wasm_traced engOkEmpty reqSample).2 = allStages :=
  (C4_stage_order_single_attempt_terminality engOkEmpty reqSample).2.2.2.1
    respSample rfl rfl

/-- C5 counterexample: a concrete run on which the guest function completes
successfully (returning one native value) while no marshaling convention is
configured, yet the outcome's `output` is the fixed placeholder object and
does not echo the original input back. -/
theorem C5_counterexample_output_not_echoed :
    execute_wasm engOkNonempty reqSample =
      Except.ok ⟨.ok,
        { success := true, output := some successPlaceholder, error := none,
          execution_time := some 7, memory_used := none }⟩ ∧
    some successPlaceholder ≠ some reqSample.input := by
  refine ⟨rfl, ?_⟩
  simp [successPlaceholder, reqSample]

/-- C5 amended: when every stage succeeds, the outcome is a generic success
whose `output` echoes the original input back exactly when the guest
returned no values, and is the fixed placeholder object otherwise; the
outcome record carries no marker distinguishing the echo fallback from a
genuine structured result (same `success`, `error`, `memory_used` shape). -/
theorem C5_generic_success_echo (e : Engine) (req : ExecuteRequest)
    (bs : Bytes) (c : Config) (v v1 v2 v3 : Vm) (rs : List WasmValue)
    (hd : e.decodeBase64 req.wasm = Except.ok bs)
    (hc : e.buildConfig (sandboxConfigOptions req) = Except.ok c)
    (hv : e.vmNew c = Except.ok v)
    (hl : e.loadWasm v bs = Except.ok v1)
    (hva : e.validateVm v1 = Except.ok v2)
    (hi : e.instantiateVm v2 = Except.ok v3)
    (hr : e.runFunc v3 (req.function_name.getD ("main")) [] = Except.ok rs) :
    execute_wasm e req =
      Except.ok ⟨.ok,
        { success := true
          output := some (if rs.isEmpty then req.input else successPlaceholder)
          error := none
          execution_time := some e.elapsedMillis
          memory_used := none }⟩ := by
  simp [execute_wasm, hd, hc, hv, hl, hva, hi, hr]

/-- C5 witness: the concrete all-successful run with an empty result list
echoes the input. -/
theorem C5_generic_success_echo_witness :
    execute_wasm engOkEmpty reqSample = Except.ok respSample :=
  C5_generic_success_echo engOkEmpty reqSample [0, 97, 115, 109] ⟨0⟩ ⟨0⟩ ⟨0⟩ ⟨0⟩ ⟨0⟩ []
    rfl rfl rfl rfl rfl rfl rfl

/-- C6: the handler passes an empty argument list to the guest invocation —
its result depends on `runFunc` only through its value at the empty
argument list, so the call's lowered input is never passed to the guest
(the serialized `input_json` is computed and discarded). -/
theorem C6_guest_invoked_without_input (e : Engine)
    (f₂ : Vm → String → List WasmValue → Except String (List WasmValue))
    (h : ∀ vm fn, f₂ vm fn [] = e.runFunc vm fn []) (req : ExecuteRequest) :
    execute_wasm { e with runFunc := f₂ } req = execute_wasm e req := by
  cases hd : e.decodeBase64 req.wasm with
  | error msg => simp [execute_wasm, hd]
  | ok bs =>
    cases hc : e.buildConfig (sandboxConfigOptions req) with
    | error msg => simp [execute_wasm, hd, hc]
    | ok c =>
      cases hv : e.vmNew c with
      | error msg => simp [execute_wasm, hd, hc, hv]
      | ok vm =>
        cases hl : e.loadWasm vm bs with
        | error msg => simp [execute_wasm, hd, hc, hv, hl]
        | ok vm1 =>
          cases hva : e.validateVm vm1 with
          | error msg => simp [execute_wasm, hd, hc, hv, hl, hva]
          | ok vm2 =>
            cases hi : e.instantiateVm vm2 with
            | error msg => simp [execute_wasm, hd, hc, hv, hl, hva, hi]
            | ok vm3 => simp [execute_wasm, hd, hc, hv, hl, hva, hi, h]

/-- C6 witness: replacing the run function by one that behaves differently
on every non-empty argument list changes nothing on a concrete request. -/
theorem C6_guest_invoked_without_input_witness :
    execute_wasm { engOkEmpty with runFunc := runFuncAlt } reqSample =
      execute_wasm engOkEmpty reqSample :=
  C6_guest_invoked_without_input engOkEmpty runFuncAlt (fun _ _ => rfl) reqSample

/-- C7: in every response the handler produces, `output` is present exactly
when `success` is true, `error` is present exactly when `success` is false,
and `execution_time` is always present. -/
theorem C7_field_presence (e : Engine) (req : ExecuteRequest)
    (resp : HttpResponse) (h : execute_wasm e req = Except.ok resp) :
    resp.body.output.isSome = resp.body.success ∧
    resp.body.error.isSome = !resp.body.success ∧
    resp.body.execution_time.isSome = true := by
  cases hd : e.decodeBase64 req.wasm with
  | error msg =>
    simp only [execute_wasm, hd, Except.ok.injEq] at h; subst h; simp
  | ok bs =>
    cases hc : e.buildConfig (sandboxConfigOptions req) with
    | error msg =>
      simp only [execute_wasm, hd, hc] at h; exact Except.noConfusion h
    | ok c =>
      cases hv : e.vmNew c with
      | error msg =>
        simp only [execute_wasm, hd, hc, hv, Except.ok.injEq] at h; subst h; simp
      | ok vm =>
        cases hl : e.loadWasm vm bs with
        | error msg =>
          simp only [execute_wasm, hd, hc, hv, hl, Except.ok.injEq] at h; subst h; simp
        | ok vm1 =>
          cases hva : e.validateVm vm1 with
          | error msg =>
            simp only [execute_wasm, hd, hc, hv, hl, hva, Except.ok.injEq] at h
            subst h; simp
          | ok vm2 =>
            cases hi : e.instantiateVm vm2 with
            | error msg =>
              simp only [execute_wasm, hd, hc, hv, hl, hva, hi, Except.ok.injEq] at h
              subst h; simp
            | ok vm3 =>
              cases hr : e.runFunc vm3 (req.function_name.getD ("main")) [] with
              | ok rs =>
                simp only [execute_wasm, hd, hc, hv, hl, hva, hi, hr, Except.ok.injEq] at h
                subst h; simp
              | error msg =>
                simp only [execute_wasm, hd, hc, hv, hl, hva, hi, hr, Except.ok.injEq] at h
                subst h; simp

/-- C7 witness: field presence on the concrete successful response. -/
theorem C7_field_presence_witness :
    respSample.body.output.isSome = respSample.body.success ∧
    respSample.body.error.isSome = !respSample.body.success ∧
    respSample.body.execution_time.isSome = true :=
  C7_field_presence engOkEmpty reqSample respSample rfl

/-- C8 counterexample: a malformed-module run is reported with the error
string "Failed to load WASM: bad magic", which does not begin with the
taxonomy stage name "LoadError" the claim requires. -/
theorem C8_counterexample_no_taxonomy_name :
    execute_wasm engLoadFail reqSample = Except.ok respLoadFail ∧
    ("LoadError").data.isPrefixOf ((respLoadFail.body.error.getD ("")).data) = false := by
  exact ⟨rfl, by decide⟩

/-- C8 amended: every failure response's error string has the format
"<tag><message>" where the tag is the failing stage's fixed human-readable
message prefix ("Invalid WASM base64: ", "Failed to create VM: ",
"Failed to load WASM: ", "Invalid WASM module: ",
"Failed to instantiate WASM: ", "Execution error: ") — not a taxonomy name
such as LoadError or RunError. -/
theorem C8_failure_error_has_stage_tag (e : Engine) (req : ExecuteRequest)
    (resp : HttpResponse) (h : execute_wasm e req = Except.ok resp)
    (hf : resp.body.success = false) :
    ∃ s msg, s ≠ Stage.config ∧ resp.body.error = some (stageTag s ++ msg) := by
  cases hd : e.decodeBase64 req.wasm with
  | error msg =>
    simp only [execute_wasm, hd, Except.ok.injEq] at h; subst h
    exact ⟨.decode, msg, by decide, rfl⟩
  | ok bs =>
    cases hc : e.buildConfig (sandboxConfigOptions req) with
    | error msg =>
      simp only [execute_wasm, hd, hc] at h; exact Except.noConfusion h
    | ok c =>
      cases hv : e.vmNew c with
      | error msg =>
        simp only [execute_wasm, hd, hc, hv, Except.ok.injEq] at h; subst h
        exact ⟨.vmNew, msg, by decide, rfl⟩
      | ok vm =>
        cases hl : e.loadWasm vm bs with
        | error msg =>
          simp only [execute_wasm, hd, hc, hv, hl, Except.ok.injEq] at h; subst h
          exact ⟨.load, msg, by decide, rfl⟩
        | ok vm1 =>
          cases hva : e.validateVm vm1 with
          | error msg =>
            simp only [execute_wasm, hd, hc, hv, hl, hva, Except.ok.injEq] at h; subst h
            exact ⟨.validate, msg, by decide, rfl⟩
          | ok vm2 =>
            cases hi : e.instantiateVm vm2 with
            | error msg =>
              simp only [execute_wasm, hd, hc, hv, hl, hva, hi, Except.ok.injEq] at h
              subst h
              exact ⟨.instantiate, msg, by decide, rfl⟩
            | ok vm3 =>
              cases hr : e.runFunc vm3 (req.function_name.getD ("main")) [] with
              | ok rs =>
                simp only [execute_wasm, hd, hc, hv, hl, hva, hi, hr, Except.ok.injEq] at h
                subst h; simp at hf
              | error msg =>
                simp only [execute_wasm, hd, hc, hv, hl, hva, hi, hr, Except.ok.injEq] at h
                subst h
                exact ⟨.run, msg, by decide, rfl⟩

/-- C8 witness: the load-failure response carries the load stage's tag. -/
theorem C8_failure_error_has_stage_tag_witness :
    ∃ s msg, s ≠ Stage.config ∧ respLoadFail.body.error = some (stageTag s ++ msg) :=
  C8_failure_error_has_stage_tag engLoadFail reqSample respLoadFail rfl rfl

end WasmedgeService
